import Mathlib

/-!
# Verification of the threat-modeling model-deployment orchestrator

Shallow embedding of the deployment orchestrator of
`services/ai-ml-service` (`deploy-models.py`) and of the ensemble
inference strategies of `test-threat-detection.py`, together with
theorems settling the specification's claims about them.

Conventions:
* Python dictionaries that preserve insertion order are embedded as
  association lists `List (String × _)`.
* Filesystem probes are embedded as boolean/functional oracles passed in
  as arguments (`fileExists : String → Bool` and the like).
* HTTP calls are embedded as an `HttpResult` value handed to the
  function: `response status` for a reply, `netError` for a
  timeout/connection failure (a raised `requests` exception).
* Python floats are embedded as `ℚ`; `numpy.round` (round half to even)
  is embedded exactly as `npRound`.
-/

namespace ThreatPlatform

/-! ## Ensemble Inference Strategy Engine (`test-threat-detection.py`)

A loaded model, restricted to its behaviour on the one test batch the
strategy receives: `predictRaw` is `model.predict(X_test)` (labels; the
anomaly detector emits `-1`/`1`, the others `0`/`1`), and `predictProba`
is `some` of the positive-class column of `model.predict_proba(X_test)`
when the model has a `predict_proba` attribute. -/
structure ModelOnBatch where
  predictRaw : List ℤ
  predictProba : Option (List ℚ)
deriving Repr, DecidableEq

/-- `numpy.round` on a scalar: round half to even (banker's rounding),
written out on the floor `⌊q⌋` and the fractional part `q - ⌊q⌋`. -/
def npRound (q : ℚ) : ℤ :=
  if q - ⌊q⌋ < 1/2 then ⌊q⌋
  else if 1/2 < q - ⌊q⌋ then ⌊q⌋ + 1
  else if ⌊q⌋ % 2 = 0 then ⌊q⌋ else ⌊q⌋ + 1

/-- `(y_pred_raw == -1).astype(int)`: the anomaly detector's label space
`{-1, +1}` mapped to binary (`-1`, anomalous, becomes `1`). -/
def anomalyToBinary (v : ℤ) : ℤ := if v = -1 then 1 else 0

/-- The per-model prediction collected by `majority_vote_ensemble`'s loop
body: the anomaly detector's raw labels are converted to binary, every
other model's labels are used as returned. -/
def effectivePred (name : String) (m : ModelOnBatch) : List ℤ :=
  if name = "anomaly_detector" then m.predictRaw.map anomalyToBinary
  else m.predictRaw

/-- `np.round(predictions_array.mean(axis=0)).astype(int)` for sample `i`:
the mean over the per-model prediction rows at column `i`, rounded with
`numpy`'s half-to-even rounding. -/
def sampleVote (preds : List (List ℤ)) (i : ℕ) : ℤ :=
  npRound ((preds.map (fun row => ((row.getD i 0 : ℤ) : ℚ))).sum / (preds.length : ℚ))

/-- `ThreatDetectionTester.majority_vote_ensemble`: collect each model's
(binary) predictions, then per sample round the mean across models;
returns no probability vector. `nSamples = len(X_test)`. -/
def majority_vote_ensemble (mods : List (String × ModelOnBatch)) (nSamples : ℕ) :
    List ℤ × Option (List ℚ) :=
  let predictions := mods.map fun p => effectivePred p.1 p.2
  ((List.range nSamples).map (sampleVote predictions), none)

/-- The weight table hard-coded in `weighted_average_ensemble`. -/
def ensembleWeights : List (String × ℚ) :=
  [("signature_detector", 3/10), ("anomaly_detector", 2/10),
   ("ensemble_rf", 5/10), ("ensemble_lr", 0), ("ensemble_svm", 0)]

/-- `weights.get(model_name, 0.1)`. -/
def lookupWeight (name : String) : ℚ :=
  ((ensembleWeights.lookup name).getD (1/10))

/-- The probability-like score `weighted_average_ensemble` extracts from
one model: the positive-class probabilities when the model has
`predict_proba` and is not the anomaly detector; the anomaly detector's
raw labels mapped to `1` (anomalous) / `0` (normal); otherwise the bare
labels cast to float. -/
def modelScore (name : String) (m : ModelOnBatch) : List ℚ :=
  if m.predictProba.isSome ∧ name ≠ "anomaly_detector" then m.predictProba.getD []
  else if name = "anomaly_detector" then
    m.predictRaw.map fun v => if v = -1 then 1 else 0
  else m.predictRaw.map fun v => (v : ℚ)

/-- The models `weighted_average_ensemble`'s loop actually uses: those
whose looked-up weight is not `0` (`if weight == 0: continue`). -/
def activeModels (mods : List (String × ModelOnBatch)) : List (String × ModelOnBatch) :=
  mods.filter fun p => ¬ (lookupWeight p.1 = 0)

/-- `ThreatDetectionTester.weighted_average_ensemble`: models whose
looked-up weight equals `0` are skipped (`continue`); the remaining
weight-scaled scores are summed per sample and divided by the
accumulated `total_weight`; the label is `1` iff the combined score is
strictly greater than `0.5`. With no contributing model it returns
`np.zeros(len(X_test))` and no probability. -/
def weighted_average_ensemble (mods : List (String × ModelOnBatch)) (nSamples : ℕ) :
    List ℤ × Option (List ℚ) :=
  let active := activeModels mods
  let weightedProbs := active.map fun p => (modelScore p.1 p.2).map (· * lookupWeight p.1)
  let totalWeight := (active.map fun p => lookupWeight p.1).sum
  if weightedProbs.isEmpty then (List.replicate nSamples 0, none)
  else
    let ensembleProb := (List.range nSamples).map fun i =>
      (weightedProbs.map fun row => row.getD i 0).sum / totalWeight
    (ensembleProb.map fun q => if 1/2 < q then 1 else 0, some ensembleProb)

/-- `ThreatDetectionTester.best_model_ensemble`:
`self.models.get('ensemble_rf') or self.models.get('signature_detector')`;
if a model is found, its own prediction (and positive-class probabilities
when it has `predict_proba`), otherwise `np.zeros(len(X_test))` and no
probability. -/
def best_model_ensemble (mods : List (String × ModelOnBatch)) (nSamples : ℕ) :
    List ℤ × Option (List ℚ) :=
  match (mods.lookup "ensemble_rf").orElse (fun _ => mods.lookup "signature_detector") with
  | some m => (m.predictRaw, m.predictProba)
  | none => (List.replicate nSamples 0, none)

/-! ### Fallible inference (error policy, claim C6)

For the error-policy claim a model's `predict` call may raise; a raised
exception is an `Except.error`. `collectPreds` is
`majority_vote_ensemble`'s collection loop over fallible models: the
first model whose `predict` raises aborts the loop (there is no
per-model `try`/`except` inside the strategy). -/
def collectPreds : List (String × Except String (List ℤ)) → Except String (List (List ℤ))
  | [] => .ok []
  | (_, .error e) :: _ => .error e
  | (name, .ok raw) :: rest =>
    match collectPreds rest with
    | .error e => .error e
    | .ok tail => .ok (effectivePred name ⟨raw, none⟩ :: tail)

/-- `majority_vote_ensemble` over models whose inference may raise: any
single raised exception propagates out of the strategy function. -/
def majority_vote_fallible (mods : List (String × Except String (List ℤ)))
    (nSamples : ℕ) : Except String (List ℤ) :=
  (collectPreds mods).map fun preds => (List.range nSamples).map (sampleVote preds)

/-- One strategy's entry in `test_ensemble_performance`'s result dict:
either a success record carrying the predictions, or the strategy-level
error record (`{"status": "error", "error": str(e)}`). -/
structure StrategyResult where
  status : String
  predictions : Option (List ℤ)
  errorMsg : Option String
deriving Repr, DecidableEq

/-- The `try`/`except` around one strategy call inside
`ThreatDetectionTester.test_ensemble_performance`: an exception escaping
the strategy function marks the whole strategy (hence the whole batch)
as `"error"`, with no predictions recorded. -/
def runEnsembleStrategy (out : Except String (List ℤ)) : StrategyResult :=
  match out with
  | .ok pred => ⟨"success", some pred, none⟩
  | .error e => ⟨"error", none, some e⟩

/-! ## Deployment orchestrator (`deploy-models.py`) -/

/-- Outcome of one HTTP request: a reply with a status code and body, or
a raised `requests.exceptions.RequestException` (timeout, connection
error, ...). -/
inductive HttpResult (α : Type) where
  | response (status : ℕ) (body : α)
  | netError (msg : String)
deriving Repr, DecidableEq

/-- The fixed model-name catalog of `register_models_with_registry`. -/
def model_names : List String :=
  ["signature_detector", "anomaly_detector", "ensemble_rf", "ensemble_lr", "ensemble_svm"]

/-- One entry of the registry payload's `models` list. -/
structure RegistryModelInfo where
  name : String
  version : String
  filePath : String
  performanceMetrics : List (String × ℚ)
deriving Repr, DecidableEq

/-- The registry payload built by `register_models_with_registry`
(timestamps elided; `preprocessors` reduced to its presence). -/
structure RegistryPayload where
  experimentId : String
  models : List RegistryModelInfo
  preprocessors : Bool
deriving Repr, DecidableEq

/-- The candidate payload: for each catalog name whose
`{name}_v2.0.0.joblib` file exists under the models directory
(`modelFileExists`), an entry carrying the metrics found under that name
in the metadata's `evaluation_results` (absent metrics default to `{}`).
`evaluationResults` is the metadata's `evaluation_results` mapping and
`preprocessorsExist` the existence of `preprocessors_v2.0.0.joblib`. -/
def buildRegistryPayload (experimentId : String) (modelsDir : String)
    (modelFileExists : String → Bool)
    (evaluationResults : List (String × List (String × ℚ)))
    (preprocessorsExist : Bool) : RegistryPayload :=
  { experimentId := experimentId
    models := (model_names.filter modelFileExists).map fun name =>
      { name := name
        version := "2.0.0"
        filePath := modelsDir ++ "/" ++ name ++ "_v2.0.0.joblib"
        performanceMetrics := (evaluationResults.lookup name).getD [] }
    preprocessors := preprocessorsExist }

/-- How a registry entry came to be: authoritative remote answer, or the
local JSON fallback record. -/
inductive RegistrationMode where
  | remote
  | localFallback
deriving Repr, DecidableEq

/-- What `register_models_with_registry` hands back: the mode, the
returned payload (the API's echoed body for `remote`, the candidate for
`localFallback`), and whether the local
`model_registry_deployment.json` record was written. -/
structure RegisterResult where
  mode : RegistrationMode
  entry : RegistryPayload
  writtenLocally : Bool
deriving Repr, DecidableEq

/-- `ModelDeployer.register_models_with_registry`: POST the candidate
payload to the registry; a 200 reply is returned as-is (`remote`); any
other status, timeout or connection error falls through to persisting
and returning the candidate (`localFallback`). The `Except` result
records whether the call raises: it never does. -/
def register_models_with_registry (payload : RegistryPayload)
    (net : HttpResult RegistryPayload) : Except String RegisterResult :=
  match net with
  | .response status body =>
    if status = 200 then .ok ⟨.remote, body, false⟩
    else .ok ⟨.localFallback, payload, true⟩
  | .netError _ => .ok ⟨.localFallback, payload, true⟩

/-- One entry of the serving config's `models` list (constant
`resource_requirements` elided). -/
structure ModelConfig where
  name : String
  version : String
  filePath : String
  endpoint : String
  healthEndpoint : String
  performanceMetrics : List (String × ℚ)
deriving Repr, DecidableEq

/-- The serving config's `ensemble_config` block. -/
structure EnsembleConfigBlock where
  enabled : Bool
  votingStrategy : String
  weights : List (String × ℚ)
deriving Repr, DecidableEq

/-- The serving config's `monitoring.alerting` thresholds. -/
structure AlertingBlock where
  accuracyThreshold : ℚ
  latencyThresholdMs : ℕ
  errorRateThreshold : ℚ
  driftThreshold : ℚ
deriving Repr, DecidableEq

/-- The serving config's `auto_scaling` block. -/
structure AutoScalingBlock where
  enabled : Bool
  minReplicas : ℕ
  maxReplicas : ℕ
  targetCpuPercent : ℕ
  targetMemoryPercent : ℕ
deriving Repr, DecidableEq

/-- The serving config's `security` block. -/
structure SecurityBlock where
  authenticationRequired : Bool
  requestsPerMinute : ℕ
  burstSize : ℕ
deriving Repr, DecidableEq

/-- `ServingConfig`, as built by `create_model_serving_config`. -/
structure ServingConfig where
  serviceName : String
  version : String
  deploymentId : String
  models : List ModelConfig
  ensembleConfig : EnsembleConfigBlock
  autoScaling : AutoScalingBlock
  alerting : AlertingBlock
  security : SecurityBlock
deriving Repr, DecidableEq

/-- `ModelDeployer.create_model_serving_config`: a constant skeleton
(fixed ensemble weights `0.3/0.2/0.5`, autoscaling `1..5` replicas,
alerting thresholds, security policy) plus one model-config entry per
model of `registry_info["models"]`. `timestamp` is `int(time.time())`.
The function checks nothing and always returns the config. -/
def create_model_serving_config (experimentId : String) (timestamp : ℕ)
    (registryInfo : RegistryPayload) : ServingConfig :=
  { serviceName := "threat-detection-models"
    version := "2.0.0"
    deploymentId := "deploy-" ++ experimentId ++ "-" ++ toString timestamp
    models := registryInfo.models.map fun m =>
      { name := m.name
        version := m.version
        filePath := m.filePath
        endpoint := "/predict/" ++ m.name
        healthEndpoint := "/health/" ++ m.name
        performanceMetrics := m.performanceMetrics }
    ensembleConfig :=
      { enabled := true
        votingStrategy := "weighted_average"
        weights :=
          [("signature_detector", 3/10), ("anomaly_detector", 2/10), ("ensemble_rf", 5/10)] }
    autoScaling :=
      { enabled := true, minReplicas := 1, maxReplicas := 5
        targetCpuPercent := 70, targetMemoryPercent := 80 }
    alerting :=
      { accuracyThreshold := 8/10, latencyThresholdMs := 1000
        errorRateThreshold := 5/100, driftThreshold := 1/10 }
    security :=
      { authenticationRequired := true, requestsPerMinute := 1000, burstSize := 100 } }

/-- The ServingConfig invariant of the data model: every model name in
the ensemble policy's weights appears in the `models` list. -/
def servingConfigInvariant (cfg : ServingConfig) : Prop :=
  ∀ w ∈ cfg.ensembleConfig.weights, w.1 ∈ cfg.models.map ModelConfig.name

instance (cfg : ServingConfig) : Decidable (servingConfigInvariant cfg) := by
  unfold servingConfigInvariant; infer_instance

/-- One resolved endpoint pair of a `DeploymentResult`. -/
structure EndpointInfo where
  model : String
  endpoint : String
  healthEndpoint : String
deriving Repr, DecidableEq

/-- The `manual_deployment` block attached on the fallback path. -/
structure ManualDeployment where
  instructions : List String
  modelFiles : List String
deriving Repr, DecidableEq

/-- `DeploymentResult` (timestamps and the echoed API response elided). -/
structure DeploymentResult where
  deploymentId : String
  status : String
  endpoints : List EndpointInfo
  manualDeployment : Option ManualDeployment
deriving Repr, DecidableEq

/-- Endpoint pair resolved for one model: base URL plus the model's
configured paths. -/
def endpointInfoFor (baseUrl : String) (m : ModelConfig) : EndpointInfo :=
  { model := m.name
    endpoint := baseUrl ++ m.endpoint
    healthEndpoint := baseUrl ++ m.healthEndpoint }

/-- Whether the deploy POST came back with `response.status_code == 200`;
a raised timeout/connection exception counts as failure (the `except`
branch logs and falls through). -/
def deploySucceeded (net : HttpResult Unit) : Bool :=
  match net with
  | .response status _ => status = 200
  | .netError _ => false

/-- `ModelDeployer.deploy_to_serving_infrastructure`: POST the config to
`/api/mlops/deploy`; on HTTP 200 return status `"deployed"` with one
endpoint pair per model; on any other status, timeout or connection
error fall through to the manual-deployment package: status
`"configuration_ready"`, the fixed five instructions, all model file
paths, and the same endpoint pairs for reference. Always returns. -/
def deploy_to_serving_infrastructure (baseUrl : String) (cfg : ServingConfig)
    (net : HttpResult Unit) : DeploymentResult :=
  if deploySucceeded net then
    { deploymentId := cfg.deploymentId
      status := "deployed"
      endpoints := cfg.models.map (endpointInfoFor baseUrl)
      manualDeployment := none }
  else
    { deploymentId := cfg.deploymentId
      status := "configuration_ready"
      endpoints := cfg.models.map (endpointInfoFor baseUrl)
      manualDeployment := some
        { instructions :=
            ["1. Copy model files to serving infrastructure",
             "2. Load models using the provided configuration",
             "3. Start serving endpoints",
             "4. Configure monitoring and alerting",
             "5. Run health checks"]
          modelFiles := cfg.models.map ModelConfig.filePath } }

/-! ### Validation harness (`run_deployment_tests`) -/

/-- What the filesystem holds at a path, as seen by a `joblib.load`
attempt: no file, a file that fails to deserialize, or a successfully
deserialized collection of `count` objects. -/
inductive LoadResult where
  | missing
  | loadError (msg : String)
  | loaded (count : ℕ)
deriving Repr, DecidableEq

/-- One entry of the validation report's `tests` list. -/
structure TestEntry where
  test : String
  status : String
  details : String
deriving Repr, DecidableEq

/-- The model-loading check: load `models.joblib` from the hard-coded
experiment directory `initial-training-20250614` under the experiments
directory; pass iff the file exists and deserializes. -/
def modelLoadingTest (experimentsDir : String) (fileStore : String → LoadResult) : TestEntry :=
  match fileStore (experimentsDir ++ "/initial-training-20250614/models.joblib") with
  | .loaded n => ⟨"model_loading", "passed", "Successfully loaded " ++ toString n ++ " models"⟩
  | .missing => ⟨"model_loading", "failed", "Model file not found"⟩
  | .loadError e => ⟨"model_loading", "failed", "Error loading models: " ++ e⟩

/-- The preprocessor-loading check on
`{models_dir}/preprocessors_v2.0.0.joblib`. -/
def preprocessorLoadingTest (modelsDir : String) (fileStore : String → LoadResult) : TestEntry :=
  match fileStore (modelsDir ++ "/preprocessors_v2.0.0.joblib") with
  | .loaded _ => ⟨"preprocessor_loading", "passed", "Successfully loaded preprocessors"⟩
  | .missing => ⟨"preprocessor_loading", "failed", "Preprocessor file not found"⟩
  | .loadError e => ⟨"preprocessor_loading", "failed", "Error loading preprocessors: " ++ e⟩

/-- The health check for one endpoint: GET its health URL, pass iff
HTTP 200. -/
def endpointHealthTest (healthNet : String → HttpResult Unit) (ep : EndpointInfo) : TestEntry :=
  match healthNet ep.healthEndpoint with
  | .response 200 _ =>
    ⟨"endpoint_health_" ++ ep.model, "passed", "Endpoint responding: " ++ ep.healthEndpoint⟩
  | .response _ _ =>
    ⟨"endpoint_health_" ++ ep.model, "failed", "Endpoint not responding: " ++ ep.healthEndpoint⟩
  | .netError e =>
    ⟨"endpoint_health_" ++ ep.model, "failed", "Connection error: " ++ e⟩

/-- The report's `summary` block. -/
structure TestSummary where
  totalTests : ℕ
  passed : ℕ
  failed : ℕ
  successRate : ℚ
deriving Repr, DecidableEq

/-- `passed_tests`: the number of recorded checks whose status is
`"passed"`. -/
def passedCount (tests : List TestEntry) : ℕ :=
  (tests.filter fun t => t.status = "passed").length

/-- The aggregation at the end of `run_deployment_tests`:
`passed_tests / total_tests if total_tests > 0 else 0`. -/
def computeSummary (tests : List TestEntry) : TestSummary :=
  { totalTests := tests.length
    passed := passedCount tests
    failed := tests.length - passedCount tests
    successRate :=
      if 0 < tests.length then (passedCount tests : ℚ) / (tests.length : ℚ) else 0 }

/-- A validation report: the check list plus its summary. -/
structure TestResults where
  tests : List TestEntry
  summary : TestSummary
deriving Repr, DecidableEq

/-- `ModelDeployer.run_deployment_tests`: the model-loading check, the
preprocessor-loading check, and — only when the deployment result's
status is `"deployed"` — one health check per endpoint; then the
summary. -/
def run_deployment_tests (experimentsDir modelsDir : String)
    (fileStore : String → LoadResult) (healthNet : String → HttpResult Unit)
    (deploymentResult : DeploymentResult) : TestResults :=
  let tests :=
    [modelLoadingTest experimentsDir fileStore,
     preprocessorLoadingTest modelsDir fileStore] ++
    (if deploymentResult.status = "deployed" then
      deploymentResult.endpoints.map (endpointHealthTest healthNet)
    else [])
  { tests := tests, summary := computeSummary tests }

/-! ### Artifact validator and top-level driver -/

/-- The required artifact files of `validate_models`. -/
def required_files : List String :=
  ["models.joblib", "preprocessors.joblib", "metadata.json", "deployment_config.json"]

/-- `ModelDeployer.validate_models`: each required file name mapped to
its existence in the experiment directory (`experimentFileExists`),
followed by every `*_v2.0.0.joblib` file found under the models
directory (`globModelFiles`), each mapped to `true`. Never raises. -/
def validate_models (experimentFileExists : String → Bool)
    (globModelFiles : List String) : List (String × Bool) :=
  required_files.map (fun f => (f, experimentFileExists f)) ++
    globModelFiles.map (fun f => (f, true))

/-- What a run of `main` did: the process exit code and whether
`register_models_with_registry` was ever called. -/
structure DriverOutcome where
  exitCode : ℕ
  registerCalled : Bool
deriving Repr, DecidableEq

/-- `main`, modelled up to the registration decision: a missing
`metadata.json` raises `FileNotFoundError`, caught at the top level
(exit 1, registration never reached); a validation mapping containing
any `false` logs and returns 1 before registration; otherwise the run
proceeds through registration and the remaining stages, which in this
embedding never raise, to exit 0. -/
def mainDriver (metadataExists : Bool) (experimentFileExists : String → Bool)
    (globModelFiles : List String) : DriverOutcome :=
  if metadataExists then
    if (validate_models experimentFileExists globModelFiles).all (fun p => p.2) then
      ⟨0, true⟩
    else ⟨1, false⟩
  else ⟨1, false⟩

/-! ## Helper lemmas -/

lemma lookupWeight_nonneg (name : String) : 0 ≤ lookupWeight name := by
  unfold lookupWeight ensembleWeights
  simp only [List.lookup]
  repeat' split
  all_goals norm_num

lemma npRound_one : npRound 1 = 1 := by
  unfold npRound
  norm_num

lemma npRound_of_floor_zero (q : ℚ) (hfloor : ⌊q⌋ = 0) :
    npRound q = if 1 / 2 < q then 1 else 0 := by
  unfold npRound
  rw [hfloor]
  have h0 : q - ((0 : ℤ) : ℚ) = q := by push_cast; ring
  rw [h0]
  rcases lt_trichotomy q (1 / 2) with h | h | h
  · rw [if_pos h, if_neg (by linarith)]
  · rw [if_neg (by linarith), if_neg (by linarith), if_pos (by norm_num),
      if_neg (by linarith)]
  · rw [if_neg (by linarith), if_pos h, if_pos h]
    norm_num

lemma npRound_nat_div (k m : ℕ) (hm : 0 < m) (hk : k ≤ m) :
    npRound ((k : ℚ) / (m : ℚ)) = if m < 2 * k then 1 else 0 := by
  have hmQ : (0 : ℚ) < m := by exact_mod_cast hm
  rcases eq_or_lt_of_le hk with h | h
  · subst h
    rw [div_self (ne_of_gt hmQ), npRound_one, if_pos (by omega)]
  · have h0 : (0 : ℚ) ≤ (k : ℚ) / m := by positivity
    have h1 : (k : ℚ) / m < 1 := by
      rw [div_lt_one hmQ]; exact_mod_cast h
    have hfloor : ⌊(k : ℚ) / m⌋ = 0 := by
      rw [Int.floor_eq_zero_iff]; exact ⟨h0, h1⟩
    rw [npRound_of_floor_zero _ hfloor]
    have hiff : 1 / 2 < (k : ℚ) / m ↔ m < 2 * k := by
      rw [div_lt_div_iff₀ (by norm_num : (0:ℚ) < 2) hmQ]
      constructor
      · intro hx
        have : (1 * m : ℚ) < k * 2 := hx
        have : (1 * m : ℕ) < k * 2 := by exact_mod_cast this
        omega
      · intro hx
        have : (1 * m : ℕ) < k * 2 := by omega
        exact_mod_cast this
    by_cases hc : m < 2 * k
    · rw [if_pos (hiff.mpr hc), if_pos hc]
    · rw [if_neg (fun hx => hc (hiff.mp hx)), if_neg hc]

lemma sum_map_cast_eq_count (l : List ℤ) (h : ∀ x ∈ l, x = 0 ∨ x = 1) :
    (l.map fun v : ℤ => (v : ℚ)).sum = ((l.count 1 : ℕ) : ℚ) := by
  induction l with
  | nil => simp
  | cons a t ih =>
    have ha := h a (List.mem_cons_self a t)
    have ht : ∀ x ∈ t, x = 0 ∨ x = 1 := fun x hx => h x (List.mem_cons_of_mem a hx)
    rcases ha with ha | ha <;> subst ha <;> (simp [List.count_cons, ih ht]; try ring)

lemma getD_map_mul (l : List ℚ) (w : ℚ) (i : ℕ) :
    (l.map (· * w)).getD i 0 = l.getD i 0 * w := by
  rw [List.getD_eq_getElem?_getD, List.getD_eq_getElem?_getD, List.getElem?_map]
  cases l[i]? <;> simp

lemma getD_range_map {α : Type} (f : ℕ → α) (n i : ℕ) (hi : i < n) (d : α) :
    ((List.range n).map f).getD i d = f i := by
  rw [List.getD_eq_getElem?_getD, List.getElem?_map, List.getElem?_range hi]
  rfl

lemma filter_passed_of_all (l : List TestEntry) (h : ∀ t ∈ l, t.status = "passed") :
    l.filter (fun t => t.status = "passed") = l := by
  induction l with
  | nil => rfl
  | cons a t ih =>
    have ha := h a (List.mem_cons_self a t)
    have ht : ∀ x ∈ t, x.status = "passed" := fun x hx => h x (List.mem_cons_of_mem a hx)
    simp [List.filter_cons, ha, ih ht]

lemma computeSummary_rate_of_pos (l : List TestEntry) (h : 0 < l.length) :
    (computeSummary l).successRate =
      ((computeSummary l).passed : ℚ) / ((computeSummary l).totalTests : ℚ) := by
  unfold computeSummary
  simp only
  rw [if_pos h]

lemma computeSummary_rate_of_all_passed (l : List TestEntry) (h0 : 0 < l.length)
    (hall : ∀ t ∈ l, t.status = "passed") : (computeSummary l).successRate = 1 := by
  unfold computeSummary passedCount
  simp only
  rw [filter_passed_of_all l hall, if_pos h0]
  exact div_self (Nat.cast_ne_zero.mpr (Nat.pos_iff_ne_zero.mp h0))

/-! ## Claims -/

/-- C1 counterexample: for the registry info with an empty `models` list,
`create_model_serving_config` returns a serving config whose ensemble
policy still names `signature_detector` (weight `0.3`) while the model
list is empty — the invariant is violated and the config is returned
anyway; no `ConfigInconsistencyError` exists in the code. -/
theorem C1_counterexample :
    ("signature_detector", (3/10 : ℚ)) ∈
      (create_model_serving_config "exp-1" 0
        { experimentId := "exp-1", models := [], preprocessors := false }
      ).ensembleConfig.weights ∧
    (create_model_serving_config "exp-1" 0
      { experimentId := "exp-1", models := [], preprocessors := false }).models = [] ∧
    ¬ servingConfigInvariant (create_model_serving_config "exp-1" 0
      { experimentId := "exp-1", models := [], preprocessors := false }) := by
  refine ⟨by simp [create_model_serving_config], rfl, ?_⟩
  intro hinv
  have h := hinv ("signature_detector", 3/10) (by simp [create_model_serving_config])
  simp [create_model_serving_config] at h

/-- C1 (amended): `create_model_serving_config` performs no consistency
check and always returns a config; its ensemble-policy weights are the
fixed table (signature_detector 0.3, anomaly_detector 0.2, ensemble_rf
0.5) regardless of `registry_info`, its model list mirrors
`registry_info["models"]`, and the invariant "every model referenced in
the ensemble policy has an entry in the model list" holds exactly when
those three names all appear among `registry_info`'s model names. -/
theorem C1_invariant_iff_names_registered (experimentId : String) (timestamp : ℕ)
    (registryInfo : RegistryPayload) :
    (create_model_serving_config experimentId timestamp registryInfo).ensembleConfig.weights =
      [("signature_detector", 3/10), ("anomaly_detector", 2/10), ("ensemble_rf", 5/10)] ∧
    (create_model_serving_config experimentId timestamp registryInfo).models.map
        ModelConfig.name = registryInfo.models.map RegistryModelInfo.name ∧
    (servingConfigInvariant (create_model_serving_config experimentId timestamp registryInfo) ↔
      ∀ nm ∈ ["signature_detector", "anomaly_detector", "ensemble_rf"],
        nm ∈ registryInfo.models.map RegistryModelInfo.name) := by
  have hnames : (create_model_serving_config experimentId timestamp registryInfo).models.map
      ModelConfig.name = registryInfo.models.map RegistryModelInfo.name := by
    simp only [create_model_serving_config, List.map_map]
    rfl
  refine ⟨rfl, hnames, ?_⟩
  unfold servingConfigInvariant
  rw [hnames]
  constructor
  · intro h nm hnm
    simp only [List.mem_cons, List.not_mem_nil, or_false] at hnm
    rcases hnm with h1 | h1 | h1 <;> subst h1
    · exact h ("signature_detector", 3/10) (by simp [create_model_serving_config])
    · exact h ("anomaly_detector", 2/10) (by simp [create_model_serving_config])
    · exact h ("ensemble_rf", 5/10) (by simp [create_model_serving_config])
  · intro h w hw
    simp only [create_model_serving_config, List.mem_cons, List.not_mem_nil, or_false] at hw
    rcases hw with h1 | h1 | h1 <;> subst h1 <;> exact h _ (by simp)

/-- C2 counterexample: with two models predicting `[1]` and `[0]` (a
tie, mean `0.5`), `majority_vote_ensemble` yields label `0`, not the
claimed `1`: `np.round` rounds half to even. -/
theorem C2_counterexample :
    majority_vote_ensemble
        [("signature_detector", ⟨[1], none⟩), ("ensemble_rf", ⟨[0], none⟩)] 1 =
      ([0], none) ∧ (0 : ℤ) ≠ 1 := by
  constructor
  · simp [majority_vote_ensemble, effectivePred, sampleVote, List.range_succ]
    norm_num [npRound]
  · decide

/-- C2 (amended): for every non-empty collection of models with binary
per-sample predictions, `majority_vote_ensemble` returns per sample the
mean of the binary predictions rounded to nearest with ties to even:
since the tied mean is exactly `0.5` and `⌊0.5⌋ = 0` is even, a tie
resolves to label `0`; the label is `1` exactly when a strict majority
of models predicts `1` ([1,1,0] still yields 1, but [1,0] yields 0). -/
theorem C2_majority_vote_ties_round_to_even (mods : List (String × ModelOnBatch))
    (n i : ℕ) (hne : mods ≠ [])
    (hbin : ∀ p ∈ mods, ∀ v ∈ effectivePred p.1 p.2, v = 0 ∨ v = 1)
    (hi : i < n) :
    (majority_vote_ensemble mods n).1.getD i 0 =
      (if mods.length <
          2 * (((mods.map fun p => effectivePred p.1 p.2).map fun row => row.getD i 0).count 1)
        then 1 else 0) ∧
    (majority_vote_ensemble mods n).2 = none := by
  refine ⟨?_, rfl⟩
  set preds := mods.map fun p => effectivePred p.1 p.2 with hpreds
  set col := preds.map fun row => row.getD i 0 with hcol
  have hcolbin : ∀ x ∈ col, x = 0 ∨ x = 1 := by
    intro x hx
    rw [hcol] at hx
    rcases List.mem_map.mp hx with ⟨row, hrow, hxval⟩
    rcases Nat.lt_or_ge i row.length with hlen | hlen
    · subst hxval
      rw [List.getD_eq_getElem _ _ hlen]
      rcases List.mem_map.mp hrow with ⟨p, hp, hrowval⟩
      subst hrowval
      exact hbin p hp _ (List.getElem_mem hlen)
    · subst hxval
      left
      rw [List.getD_eq_default]
      exact hlen
  have hm : 0 < mods.length := List.length_pos.mpr hne
  have hlenp : preds.length = mods.length := by rw [hpreds, List.length_map]
  have hcollen : col.length = mods.length := by rw [hcol, List.length_map, hlenp]
  have hle : col.count 1 ≤ mods.length :=
    le_trans (List.count_le_length 1 col) (le_of_eq hcollen)
  have h1 : (majority_vote_ensemble mods n).1.getD i 0 = sampleVote preds i := by
    simp only [majority_vote_ensemble]
    exact getD_range_map (sampleVote preds) n i hi 0
  rw [h1]
  unfold sampleVote
  have h2 : (preds.map fun row => ((row.getD i 0 : ℤ) : ℚ)) =
      col.map fun v : ℤ => (v : ℚ) := by
    simp only [hcol, hpreds, List.map_map]
    rfl
  rw [h2, sum_map_cast_eq_count col hcolbin, hlenp]
  exact npRound_nat_div (col.count 1) mods.length hm hle

/-- Witness for C2 (amended): three models predicting `[1]`, `[1]`,
`[0]` at sample 0 — a strict majority — yield ensemble label `1`. -/
theorem C2_amended_witness :
    (majority_vote_ensemble
        [("signature_detector", ⟨[1], none⟩), ("ensemble_rf", ⟨[1], none⟩),
         ("ensemble_lr", ⟨[0], none⟩)] 1).1.getD 0 0 = 1 := by
  have h := C2_majority_vote_ties_round_to_even
      [("signature_detector", ⟨[1], none⟩), ("ensemble_rf", ⟨[1], none⟩),
       ("ensemble_lr", ⟨[0], none⟩)] 1 0
      (by simp) (by decide) (by norm_num)
  rw [h.1]
  decide

/-- C3: `register_models_with_registry` never raises for connectivity
reasons: on any network error, timeout or non-200 reply it persists the
candidate payload locally and returns it in local-fallback mode, and for
every network outcome it returns (`.ok`) a result whose mode is remote
or local-fallback — so in particular any raising would require the
(never occurring) error case, making "raises only if the candidate model
list would be empty" hold. -/
theorem C3_register_never_raises_for_connectivity (payload : RegistryPayload)
    (net : HttpResult RegistryPayload)
    (hfail : ∀ body, net ≠ .response 200 body) :
    register_models_with_registry payload net =
      .ok ⟨.localFallback, payload, true⟩ ∧
    ∀ net' : HttpResult RegistryPayload, ∃ r : RegisterResult,
      register_models_with_registry payload net' = .ok r ∧
      (r.mode = .remote ∨ r.mode = .localFallback) := by
  constructor
  · cases net with
    | response status body =>
      have hs : status ≠ 200 := by
        intro h; subst h; exact hfail body rfl
      simp [register_models_with_registry, hs]
    | netError msg => rfl
  · intro net'
    cases net' with
    | response status body =>
      by_cases hs : status = 200
      · subst hs
        exact ⟨⟨.remote, body, false⟩, by simp [register_models_with_registry], Or.inl rfl⟩
      · exact ⟨⟨.localFallback, payload, true⟩,
          by simp [register_models_with_registry, hs], Or.inr rfl⟩
    | netError msg => exact ⟨⟨.localFallback, payload, true⟩, rfl, Or.inr rfl⟩

/-- Witness for C3: with all five artifacts present and the registry
POST raising a connection error, the candidate payload is persisted
locally and returned in local-fallback mode. -/
theorem C3_witness :
    register_models_with_registry
        (buildRegistryPayload "exp-1" "./models" (fun _ => true) [] true)
        (.netError "Connection refused") =
      .ok ⟨.localFallback,
        buildRegistryPayload "exp-1" "./models" (fun _ => true) [] true, true⟩ :=
  (C3_register_never_raises_for_connectivity
    (buildRegistryPayload "exp-1" "./models" (fun _ => true) [] true)
    (.netError "Connection refused")
    (fun _ h => HttpResult.noConfusion h)).1

/-- C5: when the deploy POST fails (timeout, connection error, or any
non-200 response), `deploy_to_serving_infrastructure` still returns a
result — the embedding is a total function, mirroring that the fallback
branch is unconditionally reachable — with status
`configuration_ready`, a non-empty manual-deployment instruction list,
the full model-file path list, and one endpoint entry per model of the
serving config. -/
theorem C5_deploy_fallback_configuration_ready (baseUrl : String) (cfg : ServingConfig)
    (net : HttpResult Unit) (hfail : ∀ u, net ≠ .response 200 u) :
    (deploy_to_serving_infrastructure baseUrl cfg net).status = "configuration_ready" ∧
    (∃ md : ManualDeployment,
      (deploy_to_serving_infrastructure baseUrl cfg net).manualDeployment = some md ∧
      md.instructions ≠ [] ∧
      md.modelFiles = cfg.models.map ModelConfig.filePath) ∧
    (deploy_to_serving_infrastructure baseUrl cfg net).endpoints.length =
      cfg.models.length := by
  have hns : deploySucceeded net = false := by
    cases net with
    | response status u =>
      have hs : status ≠ 200 := fun h => hfail u (by rw [h])
      simp [deploySucceeded, hs]
    | netError m => rfl
  have hd : deploy_to_serving_infrastructure baseUrl cfg net =
      { deploymentId := cfg.deploymentId
        status := "configuration_ready"
        endpoints := cfg.models.map (endpointInfoFor baseUrl)
        manualDeployment := some
          { instructions :=
              ["1. Copy model files to serving infrastructure",
               "2. Load models using the provided configuration",
               "3. Start serving endpoints",
               "4. Configure monitoring and alerting",
               "5. Run health checks"]
            modelFiles := cfg.models.map ModelConfig.filePath } } := by
    unfold deploy_to_serving_infrastructure
    rw [hns]
    rfl
  rw [hd]
  exact ⟨rfl, ⟨_, rfl, by simp, rfl⟩, by simp⟩

/-- Witness for C5: a five-model serving config whose deploy POST times
out yields `configuration_ready` with one endpoint per model. -/
theorem C5_witness :
    (deploy_to_serving_infrastructure "http://localhost:3007"
        (create_model_serving_config "exp-1" 0
          (buildRegistryPayload "exp-1" "./models" (fun _ => true) [] true))
        (.netError "timeout")).status = "configuration_ready" ∧
    (deploy_to_serving_infrastructure "http://localhost:3007"
        (create_model_serving_config "exp-1" 0
          (buildRegistryPayload "exp-1" "./models" (fun _ => true) [] true))
        (.netError "timeout")).endpoints.length = 5 := by
  have h := C5_deploy_fallback_configuration_ready "http://localhost:3007"
      (create_model_serving_config "exp-1" 0
        (buildRegistryPayload "exp-1" "./models" (fun _ => true) [] true))
      (.netError "timeout") (fun _ hx => HttpResult.noConfusion hx)
  refine ⟨h.1, ?_⟩
  rw [h.2.2]
  rfl

/-- C7: `best_model_ensemble` selects in the fixed order ensemble_rf,
then signature_detector, returning the selected model's own prediction
and probabilities; with neither present it returns the all-zero
prediction vector of length `n` with no probability. -/
theorem C7_best_model_selection_order (mods : List (String × ModelOnBatch)) (n : ℕ) :
    (∀ m : ModelOnBatch, mods.lookup "ensemble_rf" = some m →
      best_model_ensemble mods n = (m.predictRaw, m.predictProba)) ∧
    (mods.lookup "ensemble_rf" = none →
      ∀ m : ModelOnBatch, mods.lookup "signature_detector" = some m →
        best_model_ensemble mods n = (m.predictRaw, m.predictProba)) ∧
    (mods.lookup "ensemble_rf" = none → mods.lookup "signature_detector" = none →
      best_model_ensemble mods n = (List.replicate n 0, none) ∧
      (best_model_ensemble mods n).1.length = n) := by
  refine ⟨?_, ?_, ?_⟩
  · intro m hm
    simp [best_model_ensemble, hm, Option.orElse]
  · intro hrf m hm
    simp [best_model_ensemble, hrf, hm, Option.orElse]
  · intro hrf hsig
    have h : best_model_ensemble mods n = (List.replicate n 0, none) := by
      simp [best_model_ensemble, hrf, hsig, Option.orElse]
    exact ⟨h, by rw [h]; simp⟩

/-- Witness for C7: with only the anomaly detector loaded (neither
ensemble_rf nor signature_detector), the strategy returns three zeros
for three samples. -/
theorem C7_witness :
    best_model_ensemble [("anomaly_detector", ⟨[-1, 1, 1], none⟩)] 3 =
      ([0, 0, 0], none) := by
  have h := (C7_best_model_selection_order
      [("anomaly_detector", ⟨[-1, 1, 1], none⟩)] 3).2.2 (by rfl) (by rfl)
  rw [h.1]
  rfl

lemma collectPreds_error_of_mem (mods : List (String × Except String (List ℤ)))
    (name e : String) (hmem : (name, Except.error e) ∈ mods) :
    ∃ e', collectPreds mods = .error e' := by
  induction mods with
  | nil => cases hmem
  | cons hd tl ih =>
    match hd with
    | (nm, .error e0) => exact ⟨e0, rfl⟩
    | (nm, .ok raw) =>
      rcases List.mem_cons.mp hmem with h | h
      · simp at h
      · rcases ih h with ⟨e', he'⟩
        refine ⟨e', ?_⟩
        simp [collectPreds, he']

/-- C6 counterexample: in the majority-vote strategy a single model
whose inference raises (`"shape mismatch"`) makes the whole strategy
call fail — `test_ensemble_performance` records the entire strategy as
`status = "error"` with no predictions, instead of excluding the failing
model; the two healthy models alone would have produced the batch result
`[1, 1]`. -/
theorem C6_counterexample :
    runEnsembleStrategy (majority_vote_fallible
        [("signature_detector", .ok [1, 1]),
         ("anomaly_detector", .error "shape mismatch"),
         ("ensemble_rf", .ok [1, 1])] 2) =
      ⟨"error", none, some "shape mismatch"⟩ ∧
    majority_vote_fallible
        [("signature_detector", .ok [1, 1]), ("ensemble_rf", .ok [1, 1])] 2 =
      .ok [1, 1] := by
  constructor
  · rfl
  · simp [majority_vote_fallible, collectPreds, effectivePred, sampleVote,
      List.range_succ, Except.map]
    norm_num [npRound]

/-- C6 (amended): inside the ensemble strategies there is no per-model
exception handling: a failure raised by any single model's inference
propagates out of the strategy function and is caught only at the
strategy level by `test_ensemble_performance`, which records the whole
strategy for the whole batch as `status = "error"` with no predictions —
the batch is aborted for that strategy rather than reporting partial
success from the remaining models. -/
theorem C6_single_failure_aborts_batch
    (mods : List (String × Except String (List ℤ))) (n : ℕ)
    (name e : String) (hmem : (name, Except.error e) ∈ mods) :
    ∃ e', majority_vote_fallible mods n = .error e' ∧
      runEnsembleStrategy (majority_vote_fallible mods n) =
        ⟨"error", none, some e'⟩ := by
  rcases collectPreds_error_of_mem mods name e hmem with ⟨e', he'⟩
  refine ⟨e', ?_, ?_⟩
  · simp [majority_vote_fallible, he', Except.map]
  · simp [majority_vote_fallible, he', Except.map, runEnsembleStrategy]

/-- Witness for C6 (amended): the concrete failing batch of the
counterexample indeed yields a strategy-level error record. -/
theorem C6_amended_witness :
    ∃ e', majority_vote_fallible
        [("signature_detector", .ok [1, 1]),
         ("anomaly_detector", .error "shape mismatch"),
         ("ensemble_rf", .ok [1, 1])] 2 = .error e' ∧
      runEnsembleStrategy (majority_vote_fallible
        [("signature_detector", .ok [1, 1]),
         ("anomaly_detector", .error "shape mismatch"),
         ("ensemble_rf", .ok [1, 1])] 2) = ⟨"error", none, some e'⟩ :=
  C6_single_failure_aborts_batch _ 2 "anomaly_detector" "shape mismatch"
    (by simp)

/-- C8: the validation summary's success rate is passed checks over
total checks whenever any check ran, is defined as `0` by the guard when
zero checks ran (no division error is possible for any input), the run
always produces at least the two loading checks, and when every check
passes the rate is exactly `1`. -/
theorem C8_success_rate_never_divides_by_zero (experimentsDir modelsDir : String)
    (fileStore : String → LoadResult) (healthNet : String → HttpResult Unit)
    (dr : DeploymentResult) :
    (0 < (run_deployment_tests experimentsDir modelsDir fileStore healthNet dr
        ).summary.totalTests →
      (run_deployment_tests experimentsDir modelsDir fileStore healthNet dr
        ).summary.successRate =
        ((run_deployment_tests experimentsDir modelsDir fileStore healthNet dr
          ).summary.passed : ℚ) /
        ((run_deployment_tests experimentsDir modelsDir fileStore healthNet dr
          ).summary.totalTests : ℚ)) ∧
    (computeSummary []).successRate = 0 ∧
    0 < (run_deployment_tests experimentsDir modelsDir fileStore healthNet dr
      ).summary.totalTests ∧
    ((∀ t ∈ (run_deployment_tests experimentsDir modelsDir fileStore healthNet dr).tests,
        t.status = "passed") →
      (run_deployment_tests experimentsDir modelsDir fileStore healthNet dr
        ).summary.successRate = 1) := by
  have hsum : (run_deployment_tests experimentsDir modelsDir fileStore healthNet dr).summary =
      computeSummary
        (run_deployment_tests experimentsDir modelsDir fileStore healthNet dr).tests := rfl
  have hlen : 0 <
      (run_deployment_tests experimentsDir modelsDir fileStore healthNet dr).tests.length := by
    simp [run_deployment_tests]
  refine ⟨?_, rfl, ?_, ?_⟩
  · intro h
    rw [hsum] at h ⊢
    exact computeSummary_rate_of_pos _ h
  · rw [hsum]
    exact hlen
  · intro hall
    rw [hsum]
    exact computeSummary_rate_of_all_passed _ hlen hall

/-- Witness for C8: with every artifact loadable and every endpoint
healthy, all checks pass and the success rate is `1`. -/
theorem C8_witness :
    (run_deployment_tests "./experiments" "./models" (fun _ => .loaded 5)
        (fun _ => .response 200 ())
        ⟨"deploy-exp-1-0", "deployed",
         [⟨"signature_detector", "http://localhost:3007/predict/signature_detector",
           "http://localhost:3007/health/signature_detector"⟩], none⟩
      ).summary.successRate = 1 := by
  exact (C8_success_rate_never_divides_by_zero "./experiments" "./models"
      (fun _ => .loaded 5) (fun _ => .response 200 ())
      ⟨"deploy-exp-1-0", "deployed",
       [⟨"signature_detector", "http://localhost:3007/predict/signature_detector",
         "http://localhost:3007/health/signature_detector"⟩], none⟩).2.2.2
    (by decide)

/-- C9: `validate_models` maps every required artifact name to its
presence flag (missing artifacts are reported as `false`, not raised —
the embedding is total) and every discovered versioned model file to
`true`; the driver returns exit code 1 without ever calling
`register_models_with_registry` whenever any flag is `false`. -/
theorem C9_validator_mapping_and_driver_abort
    (experimentFileExists : String → Bool) (globModelFiles : List String) :
    (∀ f ∈ required_files,
      (f, experimentFileExists f) ∈ validate_models experimentFileExists globModelFiles) ∧
    (∀ f ∈ globModelFiles,
      (f, true) ∈ validate_models experimentFileExists globModelFiles) ∧
    ((∃ p ∈ validate_models experimentFileExists globModelFiles, p.2 = false) →
      mainDriver true experimentFileExists globModelFiles = ⟨1, false⟩) := by
  refine ⟨?_, ?_, ?_⟩
  · intro f hf
    exact List.mem_append_left _ (List.mem_map.mpr ⟨f, hf, rfl⟩)
  · intro f hf
    exact List.mem_append_right _ (List.mem_map.mpr ⟨f, hf, rfl⟩)
  · rintro ⟨p, hp, hfalse⟩
    have hall : (validate_models experimentFileExists globModelFiles).all
        (fun q => q.2) = false := by
      rw [List.all_eq_false]
      exact ⟨p, hp, by simp [hfalse]⟩
    simp [mainDriver, hall]

/-- Witness for C9: with `models.joblib` missing from the experiment
directory, the driver aborts with exit code 1 before registration. -/
theorem C9_witness :
    mainDriver true (fun f => f != "models.joblib") [] = ⟨1, false⟩ := by
  exact (C9_validator_mapping_and_driver_abort (fun f => f != "models.joblib") []).2.2
    ⟨("models.joblib", false), by decide, rfl⟩

/-- C10: the model-loading check of `run_deployment_tests` always reads
`models.joblib` from the fixed experiment directory
`initial-training-20250614` under the experiments directory: the first
recorded test is exactly `modelLoadingTest`, and its outcome is
unchanged under any change of deployment result, health responses, or
file store that leaves that single fixed path's content intact. -/
theorem C10_model_loading_reads_fixed_experiment (experimentsDir modelsDir : String)
    (fs fs' : String → LoadResult) (hn hn' : String → HttpResult Unit)
    (dr dr' : DeploymentResult)
    (hagree : fs (experimentsDir ++ "/initial-training-20250614/models.joblib") =
      fs' (experimentsDir ++ "/initial-training-20250614/models.joblib")) :
    (run_deployment_tests experimentsDir modelsDir fs hn dr).tests.head? =
      some (modelLoadingTest experimentsDir fs) ∧
    (run_deployment_tests experimentsDir modelsDir fs hn dr).tests.head? =
      (run_deployment_tests experimentsDir modelsDir fs' hn' dr').tests.head? := by
  have h1 : ∀ (g : String → LoadResult) (k : String → HttpResult Unit)
      (d : DeploymentResult),
      (run_deployment_tests experimentsDir modelsDir g k d).tests.head? =
        some (modelLoadingTest experimentsDir g) := by
    intro g k d
    simp [run_deployment_tests]
  have h2 : modelLoadingTest experimentsDir fs = modelLoadingTest experimentsDir fs' := by
    unfold modelLoadingTest
    rw [hagree]
  rw [h1 fs hn dr, h1 fs' hn' dr', h2]
  exact ⟨rfl, rfl⟩

/-- Witness for C10: two runs for different deployments (different
deployment ids and statuses) record the identical model-loading check. -/
theorem C10_witness :
    (run_deployment_tests "./experiments" "./models" (fun _ => .missing)
        (fun _ => .netError "down")
        ⟨"deploy-exp-a-0", "configuration_ready", [], none⟩).tests.head? =
      (run_deployment_tests "./experiments" "./models" (fun _ => .missing)
        (fun _ => .response 200 ())
        ⟨"deploy-exp-b-1", "deployed", [], none⟩).tests.head? :=
  (C10_model_loading_reads_fixed_experiment "./experiments" "./models"
    (fun _ => .missing) (fun _ => .missing) (fun _ => .netError "down")
    (fun _ => .response 200 ())
    ⟨"deploy-exp-a-0", "configuration_ready", [], none⟩
    ⟨"deploy-exp-b-1", "deployed", [], none⟩ rfl).2

lemma lookupWeight_configured (name : String)
    (h : name ∈ ensembleWeights.map Prod.fst) :
    ensembleWeights.lookup name = some (lookupWeight name) := by
  simp only [ensembleWeights, List.map_cons, List.map_nil, List.mem_cons,
    List.not_mem_nil, or_false] at h
  rcases h with h | h | h | h | h <;> subst h <;> rfl

/-- C4: `weighted_average_ensemble` combines exactly the models whose
configured weight is positive (for the catalog model names the effective
looked-up weight is the configured one, and weights are never negative,
so skipping weight `0` is the same as keeping weight `> 0`); the anomaly
detector's `-1` labels become score `1` and `+1` becomes `0`; a model
without `predict_proba` contributes its bare labels as scores; each
combined score is the sum of weight-scaled scores divided by the sum of
the active weights, the label is `1` iff the score is strictly greater
than `0.5` (exactly `0.5` gives label `0`); with no positively-weighted
model it returns the all-zero prediction with no probability. -/
theorem C4_weighted_average_policy (mods : List (String × ModelOnBatch)) (n : ℕ)
    (hnames : ∀ p ∈ mods, p.1 ∈ ensembleWeights.map Prod.fst) :
    (∀ p ∈ mods, ensembleWeights.lookup p.1 = some (lookupWeight p.1)) ∧
    (∀ p ∈ mods, (p ∈ activeModels mods ↔ 0 < lookupWeight p.1)) ∧
    (∀ m : ModelOnBatch, modelScore "anomaly_detector" m =
      m.predictRaw.map fun v => if v = -1 then 1 else 0) ∧
    (∀ (name : String) (m : ModelOnBatch),
      m.predictProba = none → ¬ name = "anomaly_detector" →
      modelScore name m = m.predictRaw.map fun v => (v : ℚ)) ∧
    (activeModels mods = [] →
      weighted_average_ensemble mods n = (List.replicate n 0, none)) ∧
    (¬ activeModels mods = [] → ∃ probs : List ℚ,
      weighted_average_ensemble mods n =
        (probs.map fun q => if 1/2 < q then 1 else 0, some probs) ∧
      probs.length = n ∧
      ∀ i, i < n → probs.getD i 0 =
        ((activeModels mods).map fun p =>
          (modelScore p.1 p.2).getD i 0 * lookupWeight p.1).sum /
        ((activeModels mods).map fun p => lookupWeight p.1).sum) := by
  refine ⟨fun p hp => lookupWeight_configured p.1 (hnames p hp), ?_, ?_, ?_, ?_, ?_⟩
  · intro p hp
    unfold activeModels
    rw [List.mem_filter]
    constructor
    · rintro ⟨-, hq⟩
      simp only [decide_not, Bool.not_eq_true', decide_eq_false_iff_not] at hq
      exact lt_of_le_of_ne (lookupWeight_nonneg p.1) (Ne.symm hq)
    · intro hpos
      exact ⟨hp, by simp [ne_of_gt hpos]⟩
  · intro m
    simp [modelScore]
  · intro name m hnone hname
    simp [modelScore, hnone, hname]
  · intro hempty
    simp [weighted_average_ensemble, hempty]
  · intro hne
    refine ⟨(List.range n).map fun i =>
        (((activeModels mods).map fun p =>
          (modelScore p.1 p.2).map (· * lookupWeight p.1)).map
            fun row => row.getD i 0).sum /
        ((activeModels mods).map fun p => lookupWeight p.1).sum, ?_, ?_, ?_⟩
    · have hwne : ((activeModels mods).map fun p =>
          (modelScore p.1 p.2).map (· * lookupWeight p.1)).isEmpty = false := by
        rw [List.isEmpty_eq_false]
        simp only [ne_eq, List.map_eq_nil_iff]
        exact hne
      simp only [weighted_average_ensemble]
      rw [hwne]
      rfl
    · simp
    · intro i hi
      rw [getD_range_map _ n i hi]
      congr 1
      rw [List.map_map]
      refine congrArg List.sum (List.map_congr_left fun p _ => ?_)
      simp only [Function.comp_apply]
      exact getD_map_mul _ _ _

/-- Witness for C4: the signature detector (weight 0.3) predicting `[1]`
with the zero-weighted `ensemble_lr` present combines only the positive
weight and emits a probability vector with thresholded labels. -/
theorem C4_witness :
    ∃ probs : List ℚ,
      weighted_average_ensemble
        [("signature_detector", ⟨[1], none⟩), ("ensemble_lr", ⟨[0], none⟩)] 1 =
        (probs.map fun q => if 1/2 < q then 1 else 0, some probs) := by
  obtain ⟨-, -, -, -, -, h6⟩ := C4_weighted_average_policy
      [("signature_detector", ⟨[1], none⟩), ("ensemble_lr", ⟨[0], none⟩)] 1
      (by simp [ensembleWeights])
  obtain ⟨probs, heq, -, -⟩ := h6 (by
    simp [activeModels, lookupWeight, ensembleWeights, List.lookup])
  exact ⟨probs, heq⟩

end ThreatPlatform
